import Mathlib

/-
Verification of the bearer-token authentication core of the microkit
repository (crates/microkit/src/auth.rs): token validation, JWKS key
resolution and caching, and principal extraction.

The Rust code is shallowly embedded as follows.

* Pure data (JwtClaims, AuthenticatedUser, AuthConfig, JWK sets) becomes
  plain Lean structures.  Key material is abstracted as a Nat identifier;
  cryptographic signature verification is abstracted as an oracle
  parameter of type Alg -> Nat -> Token -> Bool passed to every function
  that needs it, so theorems quantify over all possible verifiers.
* The async JWKS cache (Arc<RwLock<Option<JwkSet>>>) becomes explicit
  state passing of an Option JwkSet; each operation returns its result,
  the cache state after the call, and the number of network fetches
  performed.  The outcome of the single possible network fetch is an
  explicit parameter (Except FetchError JwkSet).
* Fallible code returns Except.  The anyhow error chain is modelled by
  the AuthError inductive; AuthError.message is the Display rendering of
  the outermost context message, which is what format!("Invalid token: \x7b\x7d", e)
  and the HTTP rejection body actually show.
* The jsonwebtoken crate (version 9, an external dependency, not part of
  this repository) is modelled from its documented behavior:
  Validation::new(alg) sets required_spec_claims = ["exp"],
  algorithms = [alg], leeway = 60 seconds, validate_exp = true,
  validate_aud = true; set_issuer and set_audience add "iss" resp. "aud"
  to the required claims; decode first checks that the header algorithm
  is in the allow-list, then verifies the signature, then validates
  claims (required presence, then exp with leeway, then iss, then aud).
-/

set_option autoImplicit false

/-- Signing algorithm identifier from the JWT header (jsonwebtoken::Algorithm).
Only the constructors needed to distinguish RS256 from any other algorithm. -/
inductive Alg where
  | RS256
  | HS256
  | ES256
  deriving DecidableEq, Repr

/-- Decoded-but-unverified JWT header (jsonwebtoken::Header): algorithm and
optional key identifier. -/
structure JwtHeader where
  alg : Alg
  kid : Option String
  deriving DecidableEq, Repr

/-- The aud claim may be a single string or a list of strings
(serde_json::Value restricted to the shapes an aud claim takes). -/
inductive AudValue where
  | single (s : String)
  | many (ss : List String)
  deriving DecidableEq, Repr

/-- JWT claims from OIDC token (struct JwtClaims in auth.rs).  exp and iss are
required fields of the Rust struct (deserialization fails when they are
absent), so they are non-optional here. -/
structure JwtClaims where
  sub : String
  email : Option String
  cognito_groups : Option (List String)
  groups : Option (List String)
  exp : Nat
  iss : String
  iat : Option Nat
  aud : Option AudValue
  deriving DecidableEq, Repr

/-- The derived Default for JwtClaims (Rust #[derive(Default)]): empty
strings, zero, and None everywhere. -/
def JwtClaims.default : JwtClaims :=
  { sub := "", email := none, cognito_groups := none, groups := none,
    exp := 0, iss := "", iat := none, aud := none }

/-- Authenticated user extracted from validated JWT (struct AuthenticatedUser
in auth.rs).  All fields are public in the source. -/
structure AuthenticatedUser where
  sub : String
  email : Option String
  groups : List String
  claims : JwtClaims
  deriving DecidableEq, Repr

/-- The derived Default for AuthenticatedUser (Rust #[derive(Default)] on the
struct): a principal with empty subject, no email, no groups, and default
(never validated) claims. -/
def AuthenticatedUser.default : AuthenticatedUser :=
  { sub := "", email := none, groups := [], claims := JwtClaims.default }

/-- A single JSON Web Key: key identifier plus abstract key material. -/
structure Jwk where
  kid : String
  key : Nat
  deriving DecidableEq, Repr

/-- A JSON Web Key Set (jsonwebtoken::jwk::JwkSet). -/
structure JwkSet where
  keys : List Jwk
  deriving DecidableEq, Repr

/-- JwkSet::find: first key whose key id equals kid. -/
def JwkSet.find (jwks : JwkSet) (kid : String) : Option Jwk :=
  jwks.keys.find? (fun k => k.kid == kid)

/-- Structurally well-formed token: header, claims, abstract signature. -/
structure Token where
  header : JwtHeader
  claims : JwtClaims
  sig : Nat
  deriving DecidableEq, Repr

/-- A compact token as seen by the validator after transport: either
structurally malformed (decode_header fails) or a decoded header, claim set
and abstract signature value. -/
inductive RawToken where
  | malformed
  | token (t : Token)
  deriving DecidableEq, Repr

/-- Auth configuration for OIDC (struct AuthConfig in auth.rs); the JWKS
cache is threaded explicitly through the operations instead of living in a
lock inside the struct. -/
structure AuthConfig where
  jwks_uri : String
  issuer : String
  audience : Option String
  client_secret : Option String
  deriving DecidableEq, Repr

/-- Outcome of the HTTP GET against the JWKS endpoint: network failure,
JSON parse failure, or a parsed key set. -/
inductive FetchError where
  | network
  | parse
  deriving DecidableEq, Repr

/-- Claim-validation error kinds of the jsonwebtoken crate that this code
can produce (jsonwebtoken::errors::ErrorKind). -/
inductive JwtError where
  | InvalidAlgorithm
  | InvalidSignature
  | ExpiredSignature
  | InvalidIssuer
  | InvalidAudience
  | MissingRequiredClaim (claim : String)
  deriving DecidableEq, Repr

/-- The anyhow errors produced by the auth module, one constructor per
context message attached in auth.rs. -/
inductive AuthError where
  | DecodeHeaderFailed
  | MissingKid
  | KeyNotFound (kid : String)
  | FetchFailed
  | ParseJwksFailed
  | ValidateFailed (inner : JwtError)
  deriving DecidableEq, Repr

/-- Display rendering of the anyhow error: anyhow shows only the outermost
context message, so the jsonwebtoken error kind wrapped by the
"Failed to validate JWT" context is not visible in the rendered string. -/
def AuthError.message : AuthError → String
  | .DecodeHeaderFailed => "Failed to decode JWT header"
  | .MissingKid => "JWT missing \x27kid\x27 in header"
  | .KeyNotFound kid => "Key \x27" ++ kid ++ "\x27 not found in JWKS"
  | .FetchFailed => "Failed to fetch JWKS"
  | .ParseJwksFailed => "Failed to parse JWKS JSON"
  | .ValidateFailed _ => "Failed to validate JWT"

/-- jsonwebtoken::Validation (version 9): the fields this code path uses. -/
structure Validation where
  required_spec_claims : List String
  algorithms : List Alg
  leeway : Nat
  validate_exp : Bool
  validate_aud : Bool
  iss : Option (List String)
  aud : Option (List String)
  deriving DecidableEq, Repr

/-- jsonwebtoken::Validation::new (version 9): requires exp, allows exactly
the given algorithm, and applies a default clock-skew leeway of 60 seconds. -/
def Validation.new (alg : Alg) : Validation :=
  { required_spec_claims := ["exp"], algorithms := [alg], leeway := 60,
    validate_exp := true, validate_aud := true, iss := none, aud := none }

/-- jsonwebtoken::Validation::set_issuer: sets the accepted issuers and adds
iss to the required claims. -/
def Validation.set_issuer (v : Validation) (items : List String) : Validation :=
  { v with iss := some items,
           required_spec_claims := v.required_spec_claims.insert "iss" }

/-- jsonwebtoken::Validation::set_audience: sets the accepted audiences and
adds aud to the required claims. -/
def Validation.set_audience (v : Validation) (items : List String) : Validation :=
  { v with aud := some items,
           required_spec_claims := v.required_spec_claims.insert "aud" }

/-- Issuer check of jsonwebtoken::validate: fails when an issuer list is
configured and the claim is not in it. -/
def issMismatch (c : JwtClaims) (v : Validation) : Bool :=
  match v.iss with
  | none => false
  | some correct => !(correct.contains c.iss)

/-- Audience check of jsonwebtoken::validate: when an audience list is
configured and the claim parsed, a single-string aud must be in the list and
a list-shaped aud must intersect it; an absent aud is handled by the
required-claims check instead. -/
def audMismatch (c : JwtClaims) (v : Validation) : Bool :=
  match v.aud, c.aud with
  | some correct, some (.single s) => !(correct.contains s)
  | some correct, some (.many l) => !(l.any (fun s => correct.contains s))
  | some _, none => false
  | none, _ => false

/-- jsonwebtoken::validate (version 9) on the claim shapes of this program:
required-claim presence first (exp and iss are always present in the typed
claim struct, so only aud can be missing), then expiry with leeway
(exp < now - leeway rejects), then issuer, then audience. -/
def validateClaims (c : JwtClaims) (v : Validation) (now : Nat) : Option JwtError :=
  if "aud" ∈ v.required_spec_claims ∧ c.aud = none then
    some (.MissingRequiredClaim "aud")
  else if v.validate_exp ∧ c.exp < now - v.leeway then
    some .ExpiredSignature
  else if issMismatch c v then
    some .InvalidIssuer
  else if v.validate_aud ∧ audMismatch c v then
    some .InvalidAudience
  else
    none

/-- jsonwebtoken::decode, given the already-resolved key: reject when the
header algorithm is not in the allow-list, then verify the signature via the
oracle (dispatching on the header algorithm, as the crate does, but only
after the allow-list check), then validate claims. -/
def decode (verify : Alg → Nat → Token → Bool) (t : Token) (key : Nat)
    (v : Validation) (now : Nat) : Except JwtError JwtClaims :=
  if t.header.alg ∈ v.algorithms then
    if verify t.header.alg key t then
      match validateClaims t.claims v now with
      | some e => .error e
      | none => .ok t.claims
    else
      .error .InvalidSignature
  else
    .error .InvalidAlgorithm

/-- The Validation object built by AuthConfig::validate_token:
Validation::new(Algorithm::RS256), set_issuer([issuer]), then either
set_audience([aud]) or validate_aud = false. -/
def baseValidation (cfg : AuthConfig) : Validation :=
  let v := (Validation.new .RS256).set_issuer [cfg.issuer]
  match cfg.audience with
  | some a => v.set_audience [a]
  | none => { v with validate_aud := false }

/-- AuthConfig::fetch_jwks: HTTP GET then JSON parse, each failure mapped to
its anyhow context message. -/
def fetch_jwks (response : Except FetchError JwkSet) : Except AuthError JwkSet :=
  match response with
  | .error .network => .error .FetchFailed
  | .error .parse => .error .ParseJwksFailed
  | .ok jwks => .ok jwks

/-- AuthConfig::find_key_in_jwks: look the kid up in the given set and build
the decoding key from the JWK found. -/
def find_key_in_jwks (jwks : JwkSet) (kid : String) : Except AuthError Nat :=
  match jwks.find kid with
  | none => .error (.KeyNotFound kid)
  | some jwk => .ok jwk.key

/-- AuthConfig::get_decoding_key: when a key set is cached, answer from it
(hit or KeyNotFound) with no fetch; only when the cache is empty, perform
one fetch, store the fetched set, and look the kid up there.  Returns
(result, cache afterwards, number of fetches performed). -/
def get_decoding_key (cache : Option JwkSet) (response : Except FetchError JwkSet)
    (kid : String) : Except AuthError Nat × Option JwkSet × Nat :=
  match cache with
  | some jwks => (find_key_in_jwks jwks kid, cache, 0)
  | none =>
    match fetch_jwks response with
    | .error e => (.error e, none, 1)
    | .ok jwks => (find_key_in_jwks jwks kid, some jwks, 1)

/-- AuthConfig::refresh_jwks: fetch, and only on success replace the cache.
Returns (result, cache afterwards). -/
def refresh_jwks (cache : Option JwkSet) (response : Except FetchError JwkSet) :
    Except AuthError Unit × Option JwkSet :=
  match fetch_jwks response with
  | .error e => (.error e, cache)
  | .ok jwks => (.ok (), some jwks)

/-- AuthConfig::validate_token: decode the header, require a kid, resolve
the decoding key through the cache, then run jsonwebtoken::decode with the
validation built from the config.  Returns (result, cache afterwards,
number of fetches performed). -/
def validate_token (verify : Alg → Nat → Token → Bool) (cfg : AuthConfig)
    (cache : Option JwkSet) (response : Except FetchError JwkSet)
    (raw : RawToken) (now : Nat) :
    Except AuthError JwtClaims × Option JwkSet × Nat :=
  match raw with
  | .malformed => (.error .DecodeHeaderFailed, cache, 0)
  | .token t =>
    match t.header.kid with
    | none => (.error .MissingKid, cache, 0)
    | some kid =>
      match get_decoding_key cache response kid with
      | (.error e, cache2, n) => (.error e, cache2, n)
      | (.ok key, cache2, n) =>
        match decode verify t key (baseValidation cfg) now with
        | .error e => (.error (.ValidateFailed e), cache2, n)
        | .ok claims => (.ok claims, cache2, n)

/-- Group resolution performed inline in from_request_parts:
claims.cognito_groups.clone().or_else(|| claims.groups.clone()).unwrap_or_default().
Option::or_else keeps a Some even when the contained list is empty. -/
def resolveGroups (c : JwtClaims) : List String :=
  match c.cognito_groups with
  | some g => g
  | none =>
    match c.groups with
    | some g => g
    | none => []

/-- The request parts the gate reads: the bearer credential (None models a
missing or non-Bearer Authorization header, on which extraction fails) and
the AuthConfig request extension (None when the middleware never inserted
one). -/
structure Parts where
  bearer : Option RawToken
  config : Option AuthConfig

/-- AuthenticatedUser::from_request_parts: extract the bearer credential
(401 when absent or malformed), require the AuthConfig extension (500 when
absent), validate the token (401 carrying the rendered error message on
failure), then build the principal from the validated claims.  The rejection
type (StatusCode, String) is modelled as Nat x String.  Returns (result,
cache afterwards, number of fetches performed). -/
def from_request_parts (verify : Alg → Nat → Token → Bool) (parts : Parts)
    (cache : Option JwkSet) (response : Except FetchError JwkSet) (now : Nat) :
    Except (Nat × String) AuthenticatedUser × Option JwkSet × Nat :=
  match parts.bearer with
  | none => (.error (401, "Missing or invalid Authorization header"), cache, 0)
  | some raw =>
    match parts.config with
    | none => (.error (500, "Authentication not configured"), cache, 0)
    | some cfg =>
      match validate_token verify cfg cache response raw now with
      | (.error e, cache2, n) =>
        (.error (401, "Invalid token: " ++ e.message), cache2, n)
      | (.ok claims, cache2, n) =>
        (.ok { sub := claims.sub, email := claims.email,
               groups := resolveGroups claims, claims := claims }, cache2, n)

/-
Concrete fixtures used by counterexamples and witnesses.  verifyC is a
concrete signature oracle under which a token is validly signed by a key
exactly when its signature value equals the key material.
-/

def verifyC : Alg → Nat → Token → Bool := fun _ key t => t.sig == key

/-- A signature oracle that accepts everything; used to show that a token
rejected for its algorithm is rejected before signature verification can
possibly matter. -/
def verifyTrue : Alg → Nat → Token → Bool := fun _ _ _ => true

def jwkA : Jwk := { kid := "k1", key := 7 }

def jwksA : JwkSet := { keys := [jwkA] }

def jwkB : Jwk := { kid := "k2", key := 9 }

def jwksB : JwkSet := { keys := [jwkB] }

def cfgC : AuthConfig :=
  { jwks_uri := "https://idp.example/jwks.json", issuer := "https://idp.example",
    audience := none, client_secret := none }

/-- The same provider configuration with an expected audience set. -/
def cfgAud : AuthConfig := { cfgC with audience := some "aud1" }

def claimsOk : JwtClaims :=
  { sub := "alice", email := some "alice@example.com", cognito_groups := none,
    groups := some ["b"], exp := 1000, iss := "https://idp.example",
    iat := none, aud := none }

def tokenOk : Token :=
  { header := { alg := .RS256, kid := some "k1" }, claims := claimsOk, sig := 7 }

def partsOk : Parts := { bearer := some (.token tokenOk), config := some cfgC }

/-
Helper lemmas about the validation object built by validate_token.
-/

theorem baseValidation_algorithms (cfg : AuthConfig) :
    (baseValidation cfg).algorithms = [Alg.RS256] := by
  unfold baseValidation Validation.new Validation.set_issuer Validation.set_audience
  cases cfg.audience <;> rfl

theorem baseValidation_leeway (cfg : AuthConfig) :
    (baseValidation cfg).leeway = 60 := by
  unfold baseValidation Validation.new Validation.set_issuer Validation.set_audience
  cases cfg.audience <;> rfl

theorem baseValidation_iss (cfg : AuthConfig) :
    (baseValidation cfg).iss = some [cfg.issuer] := by
  unfold baseValidation Validation.new Validation.set_issuer Validation.set_audience
  cases cfg.audience <;> rfl

theorem baseValidation_validate_exp (cfg : AuthConfig) :
    (baseValidation cfg).validate_exp = true := by
  unfold baseValidation Validation.new Validation.set_issuer Validation.set_audience
  cases cfg.audience <;> rfl

theorem baseValidation_required_none (cfg : AuthConfig) (h : cfg.audience = none) :
    (baseValidation cfg).required_spec_claims = ["iss", "exp"] := by
  unfold baseValidation Validation.new Validation.set_issuer Validation.set_audience
  rw [h]
  rfl

theorem baseValidation_required_some (cfg : AuthConfig) (a : String)
    (h : cfg.audience = some a) :
    (baseValidation cfg).required_spec_claims = ["aud", "iss", "exp"] := by
  unfold baseValidation Validation.new Validation.set_issuer Validation.set_audience
  rw [h]
  rfl

theorem baseValidation_aud_none (cfg : AuthConfig) (h : cfg.audience = none) :
    (baseValidation cfg).validate_aud = false ∧ (baseValidation cfg).aud = none := by
  unfold baseValidation Validation.new Validation.set_issuer Validation.set_audience
  rw [h]
  exact ⟨rfl, rfl⟩

theorem baseValidation_aud_some (cfg : AuthConfig) (a : String)
    (h : cfg.audience = some a) :
    (baseValidation cfg).validate_aud = true ∧ (baseValidation cfg).aud = some [a] := by
  unfold baseValidation Validation.new Validation.set_issuer Validation.set_audience
  rw [h]
  exact ⟨rfl, rfl⟩

/-- Inversion for decode: a successful decode returns exactly the claims of
the token, after an algorithm check, a signature check and claim
validation. -/
theorem decodeOkInversion (verify : Alg → Nat → Token → Bool) (t : Token)
    (key : Nat) (v : Validation) (now : Nat) (c : JwtClaims)
    (h : decode verify t key v now = .ok c) :
    c = t.claims ∧ t.header.alg ∈ v.algorithms ∧
      verify t.header.alg key t = true ∧ validateClaims t.claims v now = none := by
  unfold decode at h
  split at h
  · split at h
    · split at h
      · exact absurd h (by simp)
      · rename_i halg hsig x hval
        injection h with h2
        exact ⟨h2.symm, halg, hsig, hval⟩
    · exact absurd h (by simp)
  · exact absurd h (by simp)

theorem validateTokenOkInversion (verify : Alg → Nat → Token → Bool)
    (cfg : AuthConfig) (cache : Option JwkSet) (response : Except FetchError JwkSet)
    (raw : RawToken) (now : Nat) (claims : JwtClaims) (cache2 : Option JwkSet) (n : Nat)
    (h : validate_token verify cfg cache response raw now = (.ok claims, cache2, n)) :
    ∃ t key, raw = .token t ∧ claims = t.claims ∧
      decode verify t key (baseValidation cfg) now = .ok t.claims := by
  cases raw with
  | malformed => exact absurd h (by simp [validate_token])
  | token t =>
    simp only [validate_token] at h
    cases hkid : t.header.kid with
    | none => simp [hkid] at h
    | some kid =>
      rcases hg : get_decoding_key cache response kid with ⟨res, cache3, m⟩
      cases res with
      | error e => simp [hkid, hg] at h
      | ok key =>
        cases hd : decode verify t key (baseValidation cfg) now with
        | error e => simp [hkid, hg, hd] at h
        | ok c =>
          simp only [hkid, hg, hd, Prod.mk.injEq, Except.ok.injEq] at h
          obtain ⟨hc, -, -⟩ := h
          obtain ⟨hct, -, -, -⟩ := decodeOkInversion verify t key (baseValidation cfg) now c hd
          subst hct
          exact ⟨t, key, rfl, hc.symm, hd⟩

theorem gateOkInversion (verify : Alg → Nat → Token → Bool) (parts : Parts)
    (cache : Option JwkSet) (response : Except FetchError JwkSet) (now : Nat)
    (u : AuthenticatedUser) (cache2 : Option JwkSet) (n : Nat)
    (h : from_request_parts verify parts cache response now = (.ok u, cache2, n)) :
    ∃ cfg t key, parts.config = some cfg ∧ parts.bearer = some (.token t) ∧
      decode verify t key (baseValidation cfg) now = .ok t.claims ∧
      u = { sub := t.claims.sub, email := t.claims.email,
            groups := resolveGroups t.claims, claims := t.claims } := by
  obtain ⟨b, c⟩ := parts
  cases b with
  | none => exact absurd h (by simp [from_request_parts])
  | some raw =>
    cases c with
    | none => exact absurd h (by simp [from_request_parts])
    | some cfg =>
      simp only [from_request_parts] at h
      rcases hv : validate_token verify cfg cache response raw now with ⟨res, cache3, m⟩
      cases res with
      | error e => simp [hv] at h
      | ok claims =>
        simp only [hv, Prod.mk.injEq, Except.ok.injEq] at h
        obtain ⟨hu, -, -⟩ := h
        obtain ⟨t, key, hraw, hcl, hd⟩ :=
          validateTokenOkInversion verify cfg cache response raw now claims cache3 m hv
        subst hraw
        subst hcl
        exact ⟨cfg, t, key, rfl, rfl, hd, hu.symm⟩

/-- The audience acceptance condition of the deployed validation: trivially
true when no audience is configured; otherwise the aud claim must be present
and contain the configured audience. -/
def audOkB (cfg : AuthConfig) (c : JwtClaims) : Bool :=
  match cfg.audience with
  | none => true
  | some a =>
    match c.aud with
    | none => false
    | some (.single s) => s == a
    | some (.many l) => l.contains a

theorem validateClaimsPass (cfg : AuthConfig) (c : JwtClaims) (now : Nat)
    (hiss : c.iss = cfg.issuer) (hexp : now ≤ c.exp) (haud : audOkB cfg c = true) :
    validateClaims c (baseValidation cfg) now = none := by
  have hlee := baseValidation_leeway cfg
  have hvi := baseValidation_iss cfg
  unfold validateClaims
  have hexp2 : ¬ ((baseValidation cfg).validate_exp = true ∧
      c.exp < now - (baseValidation cfg).leeway) := by
    rw [hlee]
    rintro ⟨-, hlt⟩
    omega
  have hissOk : issMismatch c (baseValidation cfg) = false := by
    unfold issMismatch
    rw [hvi, hiss]
    simp
  cases haudcfg : cfg.audience with
  | none =>
    obtain ⟨hva, -⟩ := baseValidation_aud_none cfg haudcfg
    rw [baseValidation_required_none cfg haudcfg]
    simp [hexp2, hissOk, hva]
  | some a =>
    unfold audOkB at haud
    rw [haudcfg] at haud
    obtain ⟨hva, hauds⟩ := baseValidation_aud_some cfg a haudcfg
    rw [baseValidation_required_some cfg a haudcfg]
    cases hcaud : c.aud with
    | none => rw [hcaud] at haud; exact absurd haud (by simp)
    | some av =>
      have haudOk : audMismatch c (baseValidation cfg) = false := by
        unfold audMismatch
        rw [hauds, hcaud]
        cases av with
        | single s =>
          rw [hcaud] at haud
          simpa using haud
        | many l =>
          rw [hcaud] at haud
          have hal : a ∈ l := by simpa using haud
          simpa using hal
      simp [hexp2, hissOk, hva, haudOk, hcaud]

theorem gateSuccess (verify : Alg → Nat → Token → Bool) (t : Token) (cfg : AuthConfig)
    (jwks : JwkSet) (jwk : Jwk) (response : Except FetchError JwkSet) (now : Nat)
    (kid : String)
    (hkid : t.header.kid = some kid)
    (hfind : jwks.find kid = some jwk)
    (halg : t.header.alg = .RS256)
    (hsig : verify t.header.alg jwk.key t = true)
    (hval : validateClaims t.claims (baseValidation cfg) now = none) :
    from_request_parts verify ⟨some (.token t), some cfg⟩ (some jwks) response now =
      (.ok { sub := t.claims.sub, email := t.claims.email,
             groups := resolveGroups t.claims, claims := t.claims }, some jwks, 0) := by
  have halgmem : t.header.alg ∈ (baseValidation cfg).algorithms := by
    rw [baseValidation_algorithms, halg]
    simp
  simp [from_request_parts, validate_token, hkid, get_decoding_key,
    find_key_in_jwks, hfind, decode, halgmem, hsig, hval]

theorem gateErrorOutput (verify : Alg → Nat → Token → Bool) (raw : RawToken)
    (cfg : AuthConfig) (cache : Option JwkSet) (response : Except FetchError JwkSet)
    (now : Nat) (e : AuthError)
    (hv : (validate_token verify cfg cache response raw now).1 = .error e) :
    (from_request_parts verify ⟨some raw, some cfg⟩ cache response now).1 =
      .error (401, "Invalid token: " ++ e.message) := by
  simp only [from_request_parts]
  rcases hV : validate_token verify cfg cache response raw now with ⟨res, c2, m⟩
  rw [hV] at hv
  simp only [Prod.fst] at hv
  subst hv
  simp [hV]

def claimsC2 : JwtClaims := { claimsOk with cognito_groups := some [] }

def tokenC2 : Token :=
  { header := { alg := .RS256, kid := some "k1" }, claims := claimsC2, sig := 7 }

def partsC2 : Parts := { bearer := some (.token tokenC2), config := some cfgC }

def userOk : AuthenticatedUser :=
  { sub := "alice", email := some "alice@example.com", groups := ["b"],
    claims := claimsOk }

def claimsC3 : JwtClaims := { claimsOk with exp := 450 }

def tokenC3 : Token :=
  { header := { alg := .RS256, kid := some "k1" }, claims := claimsC3, sig := 7 }

def claimsExpired : JwtClaims := { claimsOk with exp := 100 }

def tokenExpired : Token :=
  { header := { alg := .RS256, kid := some "k1" }, claims := claimsExpired, sig := 7 }

/-- C1 counterexample: with a populated cache (holding only k1) and a kid k2
absent from it, resolution fails with KeyNotFound after zero fetches and
leaves the cache untouched, even though the available refresh response
contains k2 and the refresh-then-retry promised by the claim would have
succeeded.  This refutes the claim that a cache miss triggers a full-set
refresh followed by a second lookup. -/
theorem c1_counterexample :
    get_decoding_key (some jwksA) (.ok jwksB) "k2" =
      (.error (.KeyNotFound "k2"), some jwksA, 0) ∧
    jwksB.find "k2" = some jwkB :=
  ⟨rfl, rfl⟩

/-- C1 amended: resolution consults the cache first.  When a key set is
already cached, the kid is answered from it with zero fetches and an
unchanged cache: a present kid returns its key immediately and an absent kid
fails with KeyNotFound with no refresh.  Only when no key set has been
cached yet does resolution perform exactly one fetch; on a successful fetch
the cache becomes the fetched set and the kid is looked up there, failing
with KeyNotFound if still absent. -/
theorem c1_amended (cache : Option JwkSet) (response : Except FetchError JwkSet)
    (kid : String) :
    (∀ jwks, cache = some jwks →
        (get_decoding_key cache response kid).2.2 = 0 ∧
        (get_decoding_key cache response kid).2.1 = cache ∧
        (∀ jwk, jwks.find kid = some jwk →
            (get_decoding_key cache response kid).1 = .ok jwk.key) ∧
        (jwks.find kid = none →
            (get_decoding_key cache response kid).1 = .error (.KeyNotFound kid))) ∧
    (cache = none →
        (get_decoding_key cache response kid).2.2 = 1 ∧
        (∀ jwks2, response = .ok jwks2 →
            (get_decoding_key cache response kid).2.1 = some jwks2 ∧
            (jwks2.find kid = none →
                (get_decoding_key cache response kid).1 =
                  .error (.KeyNotFound kid)))) := by
  constructor
  · rintro jwks rfl
    refine ⟨rfl, rfl, ?_, ?_⟩
    · intro jwk h
      simp [get_decoding_key, find_key_in_jwks, h]
    · intro h
      simp [get_decoding_key, find_key_in_jwks, h]
  · rintro rfl
    constructor
    · cases response with
      | error e => cases e <;> rfl
      | ok jwks2 => rfl
    · rintro jwks2 rfl
      refine ⟨rfl, ?_⟩
      intro h
      simp [get_decoding_key, fetch_jwks, find_key_in_jwks, h]

/-- C1 witness: on the warm cache holding k1, resolving k1 succeeds with the
cached key and performs no fetch. -/
theorem c1_witness :
    (get_decoding_key (some jwksA) (.error .network) "k1").1 = .ok jwkA.key ∧
    (get_decoding_key (some jwksA) (.error .network) "k1").2.2 = 0 := by
  have h := (c1_amended (some jwksA) (.error .network) "k1").1 jwksA rfl
  exact ⟨h.2.2.1 jwkA rfl, h.1⟩

/-- C2 counterexample: a validated claim set with cognito:groups = [] and
groups = [b] yields principal groups [], not [b]: Option::or_else keeps the
provider-specific field even when the contained list is empty, so the claim
that an empty provider-specific field falls back to the generic field is
false. -/
theorem c2_counterexample :
    (from_request_parts verifyC partsC2 (some jwksA) (.error .network) 500).1 =
      .ok { sub := "alice", email := some "alice@example.com", groups := [],
            claims := claimsC2 } ∧
    claimsC2.cognito_groups = some [] ∧ claimsC2.groups = some ["b"] ∧
    ([] : List String) ≠ ["b"] :=
  ⟨rfl, rfl, rfl, by decide⟩

/-- C2 amended: for every principal the gate yields, the group list equals
the provider-specific cognito:groups field whenever that field is present,
even when it is empty; only when it is absent does the generic groups field
apply, and the empty list is used when both are absent. -/
theorem c2_amended (verify : Alg → Nat → Token → Bool) (parts : Parts)
    (cache : Option JwkSet) (response : Except FetchError JwkSet) (now : Nat)
    (u : AuthenticatedUser) (cache2 : Option JwkSet) (n : Nat)
    (h : from_request_parts verify parts cache response now = (.ok u, cache2, n)) :
    (∀ g, u.claims.cognito_groups = some g → u.groups = g) ∧
    (u.claims.cognito_groups = none →
      (∀ g, u.claims.groups = some g → u.groups = g) ∧
      (u.claims.groups = none → u.groups = [])) := by
  obtain ⟨cfg, t, key, -, -, -, hu⟩ :=
    gateOkInversion verify parts cache response now u cache2 n h
  subst hu
  simp only
  unfold resolveGroups
  constructor
  · intro g hg
    simp [hg]
  · intro hnone
    simp only [hnone]
    exact ⟨fun g hg => by simp [hg], fun hg => by simp [hg]⟩

/-- C2 witness: a concrete successful request whose claims carry only the
generic groups field yields exactly that group list. -/
theorem c2_witness : userOk.groups = ["b"] :=
  ((c2_amended verifyC partsOk (some jwksA) (.error .network) 500 userOk
      (some jwksA) 0 rfl).2 rfl).1 ["b"] rfl

/-- C3 counterexample: a token whose exp (450) is strictly before the
validation time (500) is accepted, because the jsonwebtoken default leeway
of 60 seconds applies; this refutes the zero-leeway claim that any
already-expired token is rejected. -/
theorem c3_counterexample :
    claimsC3.exp < 500 ∧
    (validate_token verifyC cfgC (some jwksA) (.error .network)
        (.token tokenC3) 500).1 = .ok claimsC3 :=
  ⟨by decide, rfl⟩

/-- C3 amended: a token whose exp is more than 60 seconds before the
validation time is rejected with a claim-invalid outcome (ExpiredSignature
wrapped in the uniform validation failure), even when its signature is
valid; the source applies the jsonwebtoken default leeway of 60 seconds
rather than zero leeway. -/
theorem c3_amended (verify : Alg → Nat → Token → Bool) (cfg : AuthConfig)
    (jwks : JwkSet) (jwk : Jwk) (t : Token) (response : Except FetchError JwkSet)
    (now : Nat) (kid : String)
    (hkid : t.header.kid = some kid)
    (hfind : jwks.find kid = some jwk)
    (halg : t.header.alg = .RS256)
    (hsig : verify t.header.alg jwk.key t = true)
    (haudreq : cfg.audience = none ∨ t.claims.aud ≠ none)
    (hexp : t.claims.exp + 60 < now) :
    (validate_token verify cfg (some jwks) response (.token t) now).1 =
      .error (.ValidateFailed .ExpiredSignature) := by
  have hval : validateClaims t.claims (baseValidation cfg) now =
      some .ExpiredSignature := by
    unfold validateClaims
    have hreq : ¬ ("aud" ∈ (baseValidation cfg).required_spec_claims ∧
        t.claims.aud = none) := by
      rcases haudreq with hnone | hsome
      · rw [baseValidation_required_none cfg hnone]
        simp
      · rintro ⟨-, h2⟩
        exact hsome h2
    have hcond : (baseValidation cfg).validate_exp = true ∧
        t.claims.exp < now - (baseValidation cfg).leeway := by
      refine ⟨baseValidation_validate_exp cfg, ?_⟩
      rw [baseValidation_leeway]
      omega
    rw [if_neg hreq, if_pos hcond]
  have halgmem : t.header.alg ∈ (baseValidation cfg).algorithms := by
    rw [baseValidation_algorithms, halg]
    simp
  simp [validate_token, hkid, get_decoding_key, find_key_in_jwks, hfind, decode,
    halgmem, hsig, hval]

/-- C3 witness: a concrete token expired by 400 seconds, validly signed by a
cached key, is rejected with the expiry outcome. -/
theorem c3_witness :
    (validate_token verifyC cfgC (some jwksA) (.error .network)
        (.token tokenExpired) 500).1 = .error (.ValidateFailed .ExpiredSignature) :=
  c3_amended verifyC cfgC jwksA jwkA tokenExpired (.error .network) 500 "k1"
    rfl rfl rfl rfl (Or.inl rfl) (by decide)

def partsExpired : Parts := { bearer := some (.token tokenExpired), config := some cfgC }

def tokenKx : Token :=
  { header := { alg := .RS256, kid := some "kx" }, claims := claimsOk, sig := 7 }

def partsKx : Parts := { bearer := some (.token tokenKx), config := some cfgC }

def claimsBadIss : JwtClaims := { claimsOk with iss := "https://evil.example" }

def tokenBadIss : Token :=
  { header := { alg := .RS256, kid := some "k1" }, claims := claimsBadIss, sig := 7 }

def tokenHS : Token :=
  { header := { alg := .HS256, kid := some "k1" }, claims := claimsOk, sig := 7 }

/-- C4 counterexample: two tokens rejected for different internal reasons
(expired versus unknown key) produce different client-facing outputs: the
rejection body echoes the rendered error, which for an unknown key names the
kid, so the caller can distinguish the two reasons.  This refutes the claim
that the client-facing output is identical for all rejection reasons. -/
theorem c4_counterexample :
    (from_request_parts verifyC partsExpired (some jwksA) (.error .network) 500).1 =
      .error (401, "Invalid token: Failed to validate JWT") ∧
    (from_request_parts verifyC partsKx (some jwksA) (.error .network) 500).1 =
      .error (401, "Invalid token: Key \x27kx\x27 not found in JWKS") ∧
    ("Invalid token: Failed to validate JWT" : String) ≠
      "Invalid token: Key \x27kx\x27 not found in JWKS" :=
  ⟨rfl, rfl, by decide⟩

/-- C4 amended: rejections that arise inside signature or claim validation
(signature mismatch, expired, wrong issuer, wrong audience) are mutually
indistinguishable to the caller: anyhow renders only the outermost context,
so every such run produces exactly (401, Invalid token: Failed to validate
JWT).  Rejections from other stages (unknown key, malformed header, missing
kid, fetch failure) carry stage-specific messages and remain
distinguishable. -/
theorem c4_amended (verify1 verify2 : Alg → Nat → Token → Bool)
    (raw1 raw2 : RawToken) (cfg1 cfg2 : AuthConfig)
    (cache1 cache2 : Option JwkSet)
    (response1 response2 : Except FetchError JwkSet)
    (now1 now2 : Nat) (r1 r2 : JwtError)
    (hv1 : (validate_token verify1 cfg1 cache1 response1 raw1 now1).1 =
      .error (.ValidateFailed r1))
    (hv2 : (validate_token verify2 cfg2 cache2 response2 raw2 now2).1 =
      .error (.ValidateFailed r2)) :
    (from_request_parts verify1 ⟨some raw1, some cfg1⟩ cache1 response1 now1).1 =
      (from_request_parts verify2 ⟨some raw2, some cfg2⟩ cache2 response2 now2).1 ∧
    (from_request_parts verify1 ⟨some raw1, some cfg1⟩ cache1 response1 now1).1 =
      .error (401, "Invalid token: Failed to validate JWT") := by
  have h1 := gateErrorOutput verify1 raw1 cfg1 cache1 response1 now1 _ hv1
  have h2 := gateErrorOutput verify2 raw2 cfg2 cache2 response2 now2 _ hv2
  rw [h1, h2]
  exact ⟨rfl, rfl⟩

/-- C4 witness: an expired token and a wrong-issuer token, both validly
signed, produce identical client-facing rejections. -/
theorem c4_witness :
    (from_request_parts verifyC ⟨some (.token tokenExpired), some cfgC⟩
        (some jwksA) (.error .network) 500).1 =
    (from_request_parts verifyC ⟨some (.token tokenBadIss), some cfgC⟩
        (some jwksA) (.error .network) 500).1 :=
  (c4_amended verifyC verifyC (.token tokenExpired) (.token tokenBadIss) cfgC cfgC
    (some jwksA) (some jwksA) (.error .network) (.error .network) 500 500
    .ExpiredSignature .InvalidIssuer rfl rfl).1

/-- C5 counterexample: the validator pins RS256 via
Validation::new(Algorithm::RS256) instead of trusting the header algorithm.
For two tokens differing only in the header algorithm field, the non-RS256
one is rejected with InvalidAlgorithm even under an oracle that accepts
every signature, so verification never proceeds under the header-declared
algorithm; the RS256 twin validates normally.  This refutes the claim that
the header algorithm selects the verification routine. -/
theorem c5_counterexample :
    tokenHS.claims = tokenOk.claims ∧ tokenHS.sig = tokenOk.sig ∧
    tokenHS.header.kid = tokenOk.header.kid ∧
    tokenHS.header.alg ≠ tokenOk.header.alg ∧
    (validate_token verifyTrue cfgC (some jwksA) (.error .network)
        (.token tokenHS) 500).1 = .error (.ValidateFailed .InvalidAlgorithm) ∧
    (validate_token verifyTrue cfgC (some jwksA) (.error .network)
        (.token tokenOk) 500).1 = .ok claimsOk :=
  ⟨rfl, rfl, rfl, by decide, rfl, rfl⟩

/-- C5 amended: the allowed-algorithm list of the validation built by
validate_token is the constant [RS256], independent of the token header, and
every resolvable token whose header declares any other algorithm is rejected
with InvalidAlgorithm before signature verification, for every possible
signature oracle. -/
theorem c5_amended (verify : Alg → Nat → Token → Bool) (cfg : AuthConfig)
    (jwks : JwkSet) (jwk : Jwk) (t : Token)
    (response : Except FetchError JwkSet) (now : Nat) (kid : String)
    (hkid : t.header.kid = some kid)
    (hfind : jwks.find kid = some jwk)
    (halg : t.header.alg ≠ .RS256) :
    (baseValidation cfg).algorithms = [Alg.RS256] ∧
    (validate_token verify cfg (some jwks) response (.token t) now).1 =
      .error (.ValidateFailed .InvalidAlgorithm) := by
  refine ⟨baseValidation_algorithms cfg, ?_⟩
  have hnotmem : t.header.alg ∉ (baseValidation cfg).algorithms := by
    rw [baseValidation_algorithms]
    simp [halg]
  simp [validate_token, hkid, get_decoding_key, find_key_in_jwks, hfind, decode,
    hnotmem]

/-- C5 witness: the HS256-declaring twin of a valid token is rejected with
InvalidAlgorithm. -/
theorem c5_witness :
    (validate_token verifyTrue cfgC (some jwksA) (.error .network)
        (.token tokenHS) 500).1 = .error (.ValidateFailed .InvalidAlgorithm) :=
  (c5_amended verifyTrue cfgC jwksA jwkA tokenHS (.error .network) 500 "k1"
    rfl rfl (by decide)).2

/-- C6 counterexample: the principal type derives Default in the source, so
AuthenticatedUser::default() is a public construction path that yields a
principal without any validation; its claims do not pass claim validation
under a concrete deployment (empty issuer, exp = 0 is long expired at time
500), refuting the claim that no code path produces a principal from
unverified claims. -/
theorem c6_counterexample :
    AuthenticatedUser.default.claims = JwtClaims.default ∧
    validateClaims AuthenticatedUser.default.claims (baseValidation cfgC) 500 =
      some .ExpiredSignature :=
  ⟨rfl, rfl⟩

/-- C6 amended: the authentication gate itself constructs principals only
from validated claims: every principal it yields carries exactly the claims
of the presented token, and those claims passed the algorithm check, the
signature check under the resolved key, and claim validation; however the
type also derives Default and has public fields, so construction outside the
gate is not prevented. -/
theorem c6_amended (verify : Alg → Nat → Token → Bool) (parts : Parts)
    (cache : Option JwkSet) (response : Except FetchError JwkSet) (now : Nat)
    (u : AuthenticatedUser) (cache2 : Option JwkSet) (n : Nat)
    (h : from_request_parts verify parts cache response now = (.ok u, cache2, n)) :
    ∃ cfg t key, parts.config = some cfg ∧ parts.bearer = some (.token t) ∧
      u.claims = t.claims ∧ t.header.alg ∈ (baseValidation cfg).algorithms ∧
      verify t.header.alg key t = true ∧
      validateClaims t.claims (baseValidation cfg) now = none := by
  obtain ⟨cfg, t, key, hc, hb, hd, hu⟩ :=
    gateOkInversion verify parts cache response now u cache2 n h
  obtain ⟨-, halg, hsig, hval⟩ :=
    decodeOkInversion verify t key (baseValidation cfg) now t.claims hd
  subst hu
  exact ⟨cfg, t, key, hc, hb, rfl, halg, hsig, hval⟩

/-- C6 witness: the concrete successful request run through the gate indeed
carries validated claims. -/
theorem c6_witness :
    ∃ cfg t key, partsOk.config = some cfg ∧ partsOk.bearer = some (.token t) ∧
      userOk.claims = t.claims ∧ t.header.alg ∈ (baseValidation cfg).algorithms ∧
      verifyC t.header.alg key t = true ∧
      validateClaims t.claims (baseValidation cfg) 500 = none :=
  c6_amended verifyC partsOk (some jwksA) (.error .network) 500 userOk
    (some jwksA) 0 rfl

def partsAudMiss : Parts := { bearer := some (.token tokenOk), config := some cfgAud }

def claimsC8 : JwtClaims := { claimsOk with sub := "" }

def tokenC8 : Token :=
  { header := { alg := .RS256, kid := some "k1" }, claims := claimsC8, sig := 7 }

def partsC8 : Parts := { bearer := some (.token tokenC8), config := some cfgC }

def parts0 : Parts := { bearer := none, config := none }

/-- C7 counterexample: a token signed by a key present in the current key
set, with matching issuer and unexpired exp, is nevertheless rejected when
the deployment configures an expected audience and the token carries no aud
claim; the gate yields no principal, refuting the claim as universally
stated. -/
theorem c7_counterexample :
    tokenOk.header.kid = some "k1" ∧
    jwksA.find "k1" = some jwkA ∧
    verifyC tokenOk.header.alg jwkA.key tokenOk = true ∧
    tokenOk.claims.iss = cfgAud.issuer ∧
    500 < tokenOk.claims.exp ∧
    (from_request_parts verifyC partsAudMiss (some jwksA) (.error .network) 500).1 =
      .error (401, "Invalid token: Failed to validate JWT") :=
  ⟨rfl, rfl, rfl, rfl, by decide, rfl⟩

/-- C7 amended: for every token whose header declares RS256 and names a kid
present in the current key set, whose signature verifies under that key,
whose iss equals the configured issuer, whose exp is at or after the
validation time, and which passes the configured audience check when an
audience is configured, the gate yields a principal whose sub and email are
copied unchanged from the validated claims. -/
theorem c7_amended (verify : Alg → Nat → Token → Bool) (cfg : AuthConfig)
    (jwks : JwkSet) (jwk : Jwk) (t : Token)
    (response : Except FetchError JwkSet) (now : Nat) (kid : String)
    (hkid : t.header.kid = some kid)
    (hfind : jwks.find kid = some jwk)
    (halg : t.header.alg = .RS256)
    (hsig : verify t.header.alg jwk.key t = true)
    (hiss : t.claims.iss = cfg.issuer)
    (hexp : now ≤ t.claims.exp)
    (haud : audOkB cfg t.claims = true) :
    (from_request_parts verify ⟨some (.token t), some cfg⟩ (some jwks)
        response now).1 =
      .ok { sub := t.claims.sub, email := t.claims.email,
            groups := resolveGroups t.claims, claims := t.claims } := by
  have hval := validateClaimsPass cfg t.claims now hiss hexp haud
  rw [gateSuccess verify t cfg jwks jwk response now kid hkid hfind halg hsig hval]

/-- C7 witness: the concrete valid token yields a principal carrying its sub
and email. -/
theorem c7_witness :
    (from_request_parts verifyC ⟨some (.token tokenOk), some cfgC⟩ (some jwksA)
        (.error .network) 500).1 =
      .ok { sub := tokenOk.claims.sub, email := tokenOk.claims.email,
            groups := resolveGroups tokenOk.claims, claims := tokenOk.claims } :=
  c7_amended verifyC cfgC jwksA jwkA tokenOk (.error .network) 500 "k1"
    rfl rfl rfl rfl rfl (by decide) rfl

/-- C8 counterexample: a token whose sub claim is the empty string but is
otherwise valid is accepted, and a principal with empty sub is produced;
neither the jsonwebtoken validation nor the gate checks sub for
non-emptiness.  This refutes the claim that an empty sub is rejected. -/
theorem c8_counterexample :
    claimsC8.sub = "" ∧
    (from_request_parts verifyC partsC8 (some jwksA) (.error .network) 500).1 =
      .ok { sub := "", email := some "alice@example.com", groups := ["b"],
            claims := claimsC8 } :=
  ⟨rfl, rfl⟩

/-- C8 amended: sub must be present for the typed claim struct to
deserialize, but validation never requires it to be non-empty: every
otherwise-valid token whose sub is the empty string is accepted and yields a
principal whose sub is the empty string. -/
theorem c8_amended (verify : Alg → Nat → Token → Bool) (cfg : AuthConfig)
    (jwks : JwkSet) (jwk : Jwk) (t : Token)
    (response : Except FetchError JwkSet) (now : Nat) (kid : String)
    (hsub : t.claims.sub = "")
    (hkid : t.header.kid = some kid)
    (hfind : jwks.find kid = some jwk)
    (halg : t.header.alg = .RS256)
    (hsig : verify t.header.alg jwk.key t = true)
    (hiss : t.claims.iss = cfg.issuer)
    (hexp : now ≤ t.claims.exp)
    (haud : audOkB cfg t.claims = true) :
    (from_request_parts verify ⟨some (.token t), some cfg⟩ (some jwks)
        response now).1 =
      .ok { sub := "", email := t.claims.email,
            groups := resolveGroups t.claims, claims := t.claims } := by
  have hval := validateClaimsPass cfg t.claims now hiss hexp haud
  rw [gateSuccess verify t cfg jwks jwk response now kid hkid hfind halg hsig hval]
  simp [hsub]

/-- C8 witness: the concrete empty-sub token is accepted end to end. -/
theorem c8_witness :
    (from_request_parts verifyC ⟨some (.token tokenC8), some cfgC⟩ (some jwksA)
        (.error .network) 500).1 =
      .ok { sub := "", email := tokenC8.claims.email,
            groups := resolveGroups tokenC8.claims, claims := tokenC8.claims } :=
  c8_amended verifyC cfgC jwksA jwkA tokenC8 (.error .network) 500 "k1"
    rfl rfl rfl rfl rfl rfl (by decide) rfl

/-- C9 counterexample: when both the Authorization header and the AuthConfig
are missing, the gate fails with the missing-credential rejection
(401, Missing or invalid Authorization header), not with the configuration
fault (500, Authentication not configured): header extraction runs before
the configuration check, refuting the claim that the gate fails with
ConfigurationMissing whenever no AuthConfig is reachable. -/
theorem c9_counterexample :
    parts0.config = none ∧
    (from_request_parts verifyC parts0 none (.error .network) 0).1 =
      .error (401, "Missing or invalid Authorization header") ∧
    ((401, "Missing or invalid Authorization header") : Nat × String) ≠
      (500, "Authentication not configured") :=
  ⟨rfl, rfl, by decide⟩

/-- C9 amended: whenever a bearer credential was extracted and no AuthConfig
is reachable, the gate fails with (500, Authentication not configured);
every failure of the gate carries status 401 or 500, and status 500 occurs
only when the AuthConfig is missing — so the configuration fault is
observably distinct from every client-facing authentication failure, which
are all surfaced with status 401. -/
theorem c9_amended (verify : Alg → Nat → Token → Bool) (parts : Parts)
    (cache : Option JwkSet) (response : Except FetchError JwkSet) (now : Nat) :
    (∀ raw, parts.bearer = some raw → parts.config = none →
        (from_request_parts verify parts cache response now).1 =
          .error (500, "Authentication not configured")) ∧
    (∀ code msg, (from_request_parts verify parts cache response now).1 =
        .error (code, msg) → code = 401 ∨ code = 500) ∧
    (∀ code msg, (from_request_parts verify parts cache response now).1 =
        .error (code, msg) → code = 500 → parts.config = none) := by
  obtain ⟨b, c⟩ := parts
  cases b with
  | none =>
    refine ⟨?_, ?_, ?_⟩
    · rintro raw hraw -
      exact absurd hraw (by simp)
    · intro code msg h
      simp [from_request_parts] at h
      exact Or.inl h.1.symm
    · intro code msg h h500
      simp [from_request_parts] at h
      omega
  | some raw =>
    cases c with
    | none =>
      refine ⟨?_, ?_, ?_⟩
      · rintro raw2 - -
        rfl
      · intro code msg h
        simp [from_request_parts] at h
        exact Or.inr h.1.symm
      · rintro code msg - -
        rfl
    | some cfg =>
      refine ⟨?_, ?_, ?_⟩
      · rintro raw2 - hcn
        exact absurd hcn (by simp)
      · intro code msg h
        rcases hV : validate_token verify cfg cache response raw now with ⟨res, c2, m⟩
        cases res with
        | error e =>
          simp [from_request_parts, hV] at h
          exact Or.inl h.1.symm
        | ok claims => simp [from_request_parts, hV] at h
      · intro code msg h h500
        rcases hV : validate_token verify cfg cache response raw now with ⟨res, c2, m⟩
        cases res with
        | error e =>
          simp [from_request_parts, hV] at h
          omega
        | ok claims => simp [from_request_parts, hV] at h

/-- C9 witness: with a bearer credential present and no AuthConfig wired,
the gate reports the configuration fault distinctly. -/
theorem c9_witness :
    (from_request_parts verifyC ⟨some (.token tokenOk), none⟩ none
        (.error .network) 0).1 = .error (500, "Authentication not configured") :=
  (c9_amended verifyC ⟨some (.token tokenOk), none⟩ none (.error .network) 0).1
    (.token tokenOk) rfl rfl

/-- C10: when the fetch or parse of the JWKS fails, the public refresh
returns an error and leaves the cache exactly as it was; key resolution on
an empty cache likewise returns an error and leaves the cache unchanged
(resolution against a populated cache never touches the network at all, per
the C1 theorems); and the refresh replaces the cache only when the fetch and
parse fully succeed, in which case the cache becomes exactly the fetched
set. -/
theorem c10_refresh_atomic (cache : Option JwkSet) (kid : String)
    (response : Except FetchError JwkSet) (err : FetchError)
    (h : response = .error err) :
    (refresh_jwks cache response).2 = cache ∧
    (∃ e, (refresh_jwks cache response).1 = Except.error e) ∧
    (get_decoding_key cache response kid).2.1 = cache ∧
    (cache = none → ∃ e, (get_decoding_key cache response kid).1 = Except.error e) ∧
    (∀ response2 : Except FetchError JwkSet,
        (refresh_jwks cache response2).2 ≠ cache →
        ∃ jwks, response2 = .ok jwks ∧ (refresh_jwks cache response2).2 = some jwks) := by
  subst h
  refine ⟨?_, ?_, ?_, ?_, ?_⟩
  · cases err <;> rfl
  · cases err
    · exact ⟨.FetchFailed, rfl⟩
    · exact ⟨.ParseJwksFailed, rfl⟩
  · cases cache with
    | none => cases err <;> rfl
    | some jwks => rfl
  · rintro rfl
    cases err
    · exact ⟨.FetchFailed, rfl⟩
    · exact ⟨.ParseJwksFailed, rfl⟩
  · intro response2 hne
    cases response2 with
    | error e2 => exact absurd (by cases e2 <;> rfl) hne
    | ok jwks => exact ⟨jwks, rfl, rfl⟩

/-- C10 witness: a failed network fetch leaves a warm cache untouched and
reports an error. -/
theorem c10_witness :
    (refresh_jwks (some jwksA) (.error .network)).2 = some jwksA ∧
    (∃ e, (refresh_jwks (some jwksA) (.error .network)).1 = Except.error e) :=
  ⟨(c10_refresh_atomic (some jwksA) "k1" (.error .network) .network rfl).1,
   (c10_refresh_atomic (some jwksA) "k1" (.error .network) .network rfl).2.1⟩
